import Mathlib

/-!
Shallow embedding of `src/homework.py`, a fitness-tracking calculator.
Python float arithmetic is modelled exactly over ℚ; all formulas are
translated directly from the source. The class hierarchy
(`Training` with subclasses `Running`, `SportsWalking`, `Swimming`) is
modelled as an inductive type, and method overriding (`get_mean_speed`,
`get_spent_calories`, `LEN_STEP`) as a match on the variant.
`Training.get_spent_calories` has body `pass` in the source, i.e. it
returns `None`; calories are therefore `Option ℚ`.
-/

namespace Homework

/-- Embedding of the `InfoMessage` dataclass: the summary record built by
`show_training_info`. The `calories` field is `Option ℚ` because the base
class's `get_spent_calories` returns `None`. String formatting
(`get_message`) is not modelled. -/
structure InfoMessage where
  training_type : String
  duration : ℚ
  distance : ℚ
  speed : ℚ
  calories : Option ℚ
deriving Repr, DecidableEq

/-- The `Training` class hierarchy: the base class and its three
subclasses, each with its constructor-set fields. -/
inductive Training where
  | base (action duration weight : ℚ)
  | running (action duration weight : ℚ)
  | sportsWalking (action duration weight height : ℚ)
  | swimming (action duration weight length_pool count_pool : ℚ)
deriving Repr, DecidableEq

namespace Training

/-- Field `self.action` (set in `Training.__init__`, shared by all variants). -/
def action : Training → ℚ
  | base a _ _ => a
  | running a _ _ => a
  | sportsWalking a _ _ _ => a
  | swimming a _ _ _ _ => a

/-- Field `self.duration` (set in `Training.__init__`, shared by all variants). -/
def duration : Training → ℚ
  | base _ d _ => d
  | running _ d _ => d
  | sportsWalking _ d _ _ => d
  | swimming _ d _ _ _ => d

/-- Field `self.weight` (set in `Training.__init__`, shared by all variants). -/
def weight : Training → ℚ
  | base _ _ w => w
  | running _ _ w => w
  | sportsWalking _ _ w _ => w
  | swimming _ _ w _ _ => w

/-- Class attribute `LEN_STEP`: `0.65` on `Training` (inherited by `Running` and
`SportsWalking`), overridden to `1.38` in `Swimming`. -/
def LEN_STEP : Training → ℚ
  | swimming _ _ _ _ _ => 1.38
  | _ => 0.65

/-- Constant `M_IN_KM = 1000` (also redefined with the same value in `Swimming`). -/
def M_IN_KM : ℚ := 1000

/-- Constant `MIN_IN_H = 60`. -/
def MIN_IN_H : ℚ := 60

/-- Method `Training.get_distance`: `self.action * self.LEN_STEP / self.M_IN_KM`. -/
def get_distance (t : Training) : ℚ :=
  t.action * t.LEN_STEP / M_IN_KM

/-- Method `get_mean_speed`: overridden in `Swimming` as
`self.length_pool * self.count_pool / self.M_IN_KM / self.duration`;
otherwise `self.get_distance() / self.duration`. -/
def get_mean_speed : Training → ℚ
  | swimming _ d _ lp cp => lp * cp / M_IN_KM / d
  | t => t.get_distance / t.duration

/-- Constant `Running.CALORIES_MEAN_SPEED_MULTIPLIER = 18`. -/
def CALORIES_MEAN_SPEED_MULTIPLIER : ℚ := 18

/-- Constant `Running.CALORIES_MEAN_SPEED_SHIFT = 1.79`. -/
def CALORIES_MEAN_SPEED_SHIFT : ℚ := 1.79

/-- Constant `SportsWalking.KMH_IN_MSEC = 0.278`. -/
def KMH_IN_MSEC : ℚ := 0.278

/-- Constant `SportsWalking.CM_IN_M = 100`. -/
def CM_IN_M : ℚ := 100

/-- Constant `SportsWalking.COEFF_WEIGHT = 0.035`. -/
def COEFF_WEIGHT : ℚ := 0.035

/-- Constant `SportsWalking.COEFF_WEIGHT_1 = 0.029`. -/
def COEFF_WEIGHT_1 : ℚ := 0.029

/-- Constant `Swimming.COEFF_MID_SPEED = 1.1`. -/
def COEFF_MID_SPEED : ℚ := 1.1

/-- Constant `Swimming.COEFF_WEIGHT = 2`. -/
def SWIM_COEFF_WEIGHT : ℚ := 2

/-- Method `get_spent_calories`. On the base class the body is `pass`, hence
`None`. Each subclass overrides with its own formula, translated term by
term from the source. -/
def get_spent_calories : Training → Option ℚ
  | base _ _ _ => none
  | running a d w =>
      some ((CALORIES_MEAN_SPEED_MULTIPLIER
              * get_mean_speed (running a d w)
              + CALORIES_MEAN_SPEED_SHIFT)
            * w / M_IN_KM
            * d * MIN_IN_H)
  | sportsWalking a d w h =>
      some ((COEFF_WEIGHT * w
              + (((get_mean_speed (sportsWalking a d w h)
                    * KMH_IN_MSEC) ^ 2)
                  / (h / CM_IN_M))
                * COEFF_WEIGHT_1
                * w)
            * d * 60)
  | swimming a d w lp cp =>
      some ((get_mean_speed (swimming a d w lp cp)
              + COEFF_MID_SPEED)
            * SWIM_COEFF_WEIGHT
            * w
            * d)

/-- Expression `type(self).__name__`: the Python class name of the variant. -/
def className : Training → String
  | base _ _ _ => "Training"
  | running _ _ _ => "Running"
  | sportsWalking _ _ _ _ => "SportsWalking"
  | swimming _ _ _ _ _ => "Swimming"

/-- Method `Training.show_training_info`: builds the `InfoMessage` from the
class name, duration, distance, mean speed and calories. -/
def show_training_info (t : Training) : InfoMessage :=
  { training_type := t.className
    duration := t.duration
    distance := t.get_distance
    speed := t.get_mean_speed
    calories := t.get_spent_calories }

/-- Replace the `action` field, keeping every other field fixed (used to
state monotonicity of `get_distance` in `action`). -/
def updateAction : Training → ℚ → Training
  | base _ d w, a => base a d w
  | running _ d w, a => running a d w
  | sportsWalking _ d w h, a => sportsWalking a d w h
  | swimming _ d w lp cp, a => swimming a d w lp cp

end Training

/-- Errors of `read_package`: the `KeyError` raised for an unrecognized
workout type (the spec's "UnknownActivityType"), and the `TypeError`
Python would raise when the positional `data` list does not match the
constructor's arity. -/
inductive ReadError where
  | unknownActivityType (workout_type : String)
  | arityMismatch
deriving Repr, DecidableEq

/-- Function `read_package`: looks the workout type up in
`{'SWM': Swimming, 'RUN': Running, 'WLK': SportsWalking}`, raises the
`KeyError` when it is absent, and otherwise constructs the matching
class positionally from `data` (`trainings[workout_type](*data)`). -/
def read_package (workout_type : String) (data : List ℚ) :
    Except ReadError Training :=
  if workout_type = "SWM" then
    match data with
    | [a, d, w, lp, cp] => .ok (.swimming a d w lp cp)
    | _ => .error .arityMismatch
  else if workout_type = "RUN" then
    match data with
    | [a, d, w] => .ok (.running a d w)
    | _ => .error .arityMismatch
  else if workout_type = "WLK" then
    match data with
    | [a, d, w, h] => .ok (.sportsWalking a d w h)
    | _ => .error .arityMismatch
  else
    .error (.unknownActivityType workout_type)

end Homework

namespace Homework

open Training

/-- C1: for every activity reading, `get_distance` equals
`action * lenStep / 1000` with `lenStep = 0.65` for Running and
SportsWalking and `1.38` for Swimming; and for Running and SportsWalking
readings with positive duration, `get_mean_speed` equals that distance
divided by the duration. -/
theorem distance_and_speed_formulas (a d w h lp cp : ℚ) (hd : 0 < d) :
    get_distance (.running a d w) = a * 0.65 / 1000 ∧
    get_distance (.sportsWalking a d w h) = a * 0.65 / 1000 ∧
    get_distance (.swimming a d w lp cp) = a * 1.38 / 1000 ∧
    get_mean_speed (.running a d w) = get_distance (.running a d w) / d ∧
    get_mean_speed (.sportsWalking a d w h)
      = get_distance (.sportsWalking a d w h) / d := by
  refine ⟨rfl, rfl, rfl, rfl, rfl⟩

/-- Witness for `distance_and_speed_formulas` at a concrete reading. -/
theorem distance_and_speed_formulas_witness :
    (0 : ℚ) < 2 ∧
    get_distance (.running 100 2 70) = 100 * 0.65 / 1000 ∧
    get_mean_speed (.running 100 2 70)
      = get_distance (.running 100 2 70) / 2 := by
  have h := distance_and_speed_formulas 100 2 70 1 1 1 (by norm_num)
  exact ⟨by norm_num, h.1, h.2.2.2.1⟩

/-- C2: for every Running reading with positive duration,
`get_spent_calories` returns
`(18 * meanSpeed + 1.79) * weight / 1000 * duration * 60`, where the mean
speed is the distance divided by the duration. -/
theorem running_calories_formula (a d w : ℚ) (hd : 0 < d) :
    get_spent_calories (.running a d w)
      = some ((18 * get_mean_speed (.running a d w) + 1.79)
              * w / 1000 * d * 60) ∧
    get_mean_speed (.running a d w) = get_distance (.running a d w) / d := by
  exact ⟨rfl, rfl⟩

/-- Witness for `running_calories_formula` at a concrete reading. -/
theorem running_calories_formula_witness :
    (0 : ℚ) < 1 ∧
    get_spent_calories (.running 15000 1 75)
      = some ((18 * get_mean_speed (.running 15000 1 75) + 1.79)
              * 75 / 1000 * 1 * 60) :=
  ⟨by norm_num, (running_calories_formula 15000 1 75 (by norm_num)).1⟩

/-- C3: for every SportsWalking reading with positive duration and height,
`get_spent_calories` returns
`(0.035*w + ((meanSpeed*0.278)^2 / (h/100)) * 0.029 * w) * d * 60`, where
the mean speed is the distance divided by the duration. -/
theorem walking_calories_formula (a d w h : ℚ) (hd : 0 < d) (hh : 0 < h) :
    get_spent_calories (.sportsWalking a d w h)
      = some ((0.035 * w
                + ((get_mean_speed (.sportsWalking a d w h) * 0.278) ^ 2
                    / (h / 100)) * 0.029 * w)
              * d * 60) ∧
    get_mean_speed (.sportsWalking a d w h)
      = get_distance (.sportsWalking a d w h) / d := by
  exact ⟨rfl, rfl⟩

/-- Witness for `walking_calories_formula` at a concrete reading. -/
theorem walking_calories_formula_witness :
    (0 : ℚ) < 1 ∧ (0 : ℚ) < 180 ∧
    get_spent_calories (.sportsWalking 9000 1 75 180)
      = some ((0.035 * 75
                + ((get_mean_speed (.sportsWalking 9000 1 75 180) * 0.278) ^ 2
                    / (180 / 100)) * 0.029 * 75)
              * 1 * 60) :=
  ⟨by norm_num, by norm_num,
    (walking_calories_formula 9000 1 75 180 (by norm_num) (by norm_num)).1⟩

/-- C4: for every Swimming reading with positive duration, the mean speed
is `length_pool * count_pool / 1000 / duration` (not the step-based
distance over duration) and `get_spent_calories` returns
`(meanSpeed + 1.1) * 2 * weight * duration`, independent of `action`;
at `action=720, duration=1, weight=80, length_pool=25, count_pool=40`
the mean speed is `1` and the calories are `336`. -/
theorem swimming_speed_and_calories (a d w lp cp : ℚ) (hd : 0 < d) :
    get_mean_speed (.swimming a d w lp cp) = lp * cp / 1000 / d ∧
    get_spent_calories (.swimming a d w lp cp)
      = some ((lp * cp / 1000 / d + 1.1) * 2 * w * d) ∧
    (∀ a' : ℚ, get_spent_calories (.swimming a' d w lp cp)
      = get_spent_calories (.swimming a d w lp cp)) ∧
    get_mean_speed (.swimming 720 1 80 25 40) = 1 ∧
    get_spent_calories (.swimming 720 1 80 25 40) = some 336 := by
  refine ⟨rfl, rfl, fun a' => rfl, by norm_num [get_mean_speed, M_IN_KM],
    ?_⟩
  simp only [get_spent_calories, get_mean_speed, M_IN_KM, COEFF_MID_SPEED,
    SWIM_COEFF_WEIGHT]
  norm_num

/-- Witness for `swimming_speed_and_calories` at the sample reading. -/
theorem swimming_speed_and_calories_witness :
    (0 : ℚ) < 1 ∧
    get_mean_speed (.swimming 720 1 80 25 40) = 25 * 40 / 1000 / 1 ∧
    get_spent_calories (.swimming 720 1 80 25 40) = some 336 := by
  have h := swimming_speed_and_calories 720 1 80 25 40 (by norm_num)
  exact ⟨by norm_num, h.1, h.2.2.2.2⟩

/-- C5: `read_package` fails with the unknown-activity-type error if and
only if the workout type is not one of `"SWM"`, `"RUN"`, `"WLK"` (so it
never returns a record in that case), and for the three recognized codes
it returns the matching record constructed positionally from `data`. -/
theorem read_package_dispatch (wt : String) (data : List ℚ) :
    ((∃ s, read_package wt data = .error (.unknownActivityType s)) ↔
      wt ∉ (["SWM", "RUN", "WLK"] : List String)) ∧
    (∀ a d w lp cp : ℚ, read_package "SWM" [a, d, w, lp, cp]
      = .ok (.swimming a d w lp cp)) ∧
    (∀ a d w : ℚ, read_package "RUN" [a, d, w] = .ok (.running a d w)) ∧
    (∀ a d w h : ℚ, read_package "WLK" [a, d, w, h]
      = .ok (.sportsWalking a d w h)) := by
  refine ⟨?_, fun a d w lp cp => rfl, fun a d w => rfl,
    fun a d w h => rfl⟩
  by_cases h1 : wt = "SWM"
  · subst h1
    simp only [read_package, if_pos rfl]
    rcases data with _ | ⟨a, _ | ⟨b, _ | ⟨c, _ | ⟨e, _ | ⟨f, _ | g⟩⟩⟩⟩⟩ <;>
      simp
  by_cases h2 : wt = "RUN"
  · subst h2
    simp only [read_package]
    rcases data with _ | ⟨a, _ | ⟨b, _ | ⟨c, _ | ⟨e, _ | ⟨f, _ | g⟩⟩⟩⟩⟩ <;>
      simp
  by_cases h3 : wt = "WLK"
  · subst h3
    simp only [read_package]
    rcases data with _ | ⟨a, _ | ⟨b, _ | ⟨c, _ | ⟨e, _ | ⟨f, _ | g⟩⟩⟩⟩⟩ <;>
      simp
  · simp [read_package, h1, h2, h3]

/-- Witness for `read_package_dispatch`: the code `"XYZ"` is not
recognized and yields the unknown-activity-type error. -/
theorem read_package_dispatch_witness :
    ("XYZ" : String) ∉ (["SWM", "RUN", "WLK"] : List String) ∧
    (∃ s, read_package "XYZ" ([] : List ℚ)
      = .error (.unknownActivityType s)) :=
  ⟨by decide, ((read_package_dispatch "XYZ" []).1).mpr (by decide)⟩

/-- C6 counterexample: at the Running sample reading
(action 15000, duration 1, weight 75) the code returns exactly
797.805 kcal, which is not approximately 798.4575: the two differ by
0.6525, more than half a kilocalorie. -/
theorem running_sample_calories_not_spec_value :
    get_spent_calories (.running 15000 1 75) = some 797.805 ∧
    (797.805 : ℚ) ≠ 798.4575 ∧
    (0.5 : ℚ) < |797.805 - 798.4575| := by
  refine ⟨?_, by norm_num, by rw [abs_of_nonpos (by norm_num)]; norm_num⟩
  simp only [get_spent_calories, get_mean_speed, get_distance, action,
    duration, LEN_STEP, M_IN_KM, MIN_IN_H, CALORIES_MEAN_SPEED_MULTIPLIER,
    CALORIES_MEAN_SPEED_SHIFT, Option.some.injEq]
  norm_num

/-- C6 amended: for the Running reading with action 15000, duration 1,
weight 75, `get_distance` returns 9.75 km, `get_mean_speed` returns
9.75 km/h, and `get_spent_calories` returns exactly 797.805 kcal
(not approximately 798.4575). -/
theorem running_sample_values :
    get_distance (.running 15000 1 75) = 9.75 ∧
    get_mean_speed (.running 15000 1 75) = 9.75 ∧
    get_spent_calories (.running 15000 1 75) = some 797.805 := by
  refine ⟨?_, ?_, ?_⟩ <;>
    · simp only [get_spent_calories, get_mean_speed, get_distance, action,
        duration, LEN_STEP, M_IN_KM, MIN_IN_H,
        CALORIES_MEAN_SPEED_MULTIPLIER, CALORIES_MEAN_SPEED_SHIFT,
        Option.some.injEq]
      norm_num

/-- C7 counterexample: at the SportsWalking sample reading
(action 9000, duration 1, weight 75, height 180) the code returns exactly
349.251747525 kcal, which is not approximately 162.876: the two differ by
more than 100. -/
theorem walking_sample_calories_not_spec_value :
    get_spent_calories (.sportsWalking 9000 1 75 180)
      = some 349.251747525 ∧
    (349.251747525 : ℚ) ≠ 162.876 ∧
    (100 : ℚ) < |349.251747525 - 162.876| := by
  refine ⟨?_, by norm_num, by rw [abs_of_nonneg (by norm_num)]; norm_num⟩
  simp only [get_spent_calories, get_mean_speed, get_distance, action,
    duration, LEN_STEP, M_IN_KM, COEFF_WEIGHT, COEFF_WEIGHT_1,
    KMH_IN_MSEC, CM_IN_M, Option.some.injEq]
  norm_num

/-- C7 amended: for the SportsWalking reading with action 9000,
duration 1, weight 75, height 180, `get_distance` returns 5.85 km,
`get_mean_speed` returns 5.85 km/h, and `get_spent_calories` returns
exactly 349.251747525 kcal (not approximately 162.876). -/
theorem walking_sample_values :
    get_distance (.sportsWalking 9000 1 75 180) = 5.85 ∧
    get_mean_speed (.sportsWalking 9000 1 75 180) = 5.85 ∧
    get_spent_calories (.sportsWalking 9000 1 75 180)
      = some 349.251747525 := by
  refine ⟨?_, ?_, ?_⟩ <;>
    · simp only [get_spent_calories, get_mean_speed, get_distance, action,
        duration, LEN_STEP, M_IN_KM, COEFF_WEIGHT, COEFF_WEIGHT_1,
        KMH_IN_MSEC, CM_IN_M, Option.some.injEq]
      norm_num

/-- C8: for every activity reading, with all other fields fixed,
`get_distance` is strictly increasing in the `action` count. -/
theorem distance_mono_in_action (t : Training) (a1 a2 : ℚ) (h : a1 < a2) :
    get_distance (t.updateAction a1) < get_distance (t.updateAction a2) := by
  cases t <;>
    · simp only [updateAction, get_distance, action, LEN_STEP, M_IN_KM]
      rw [div_lt_div_iff_of_pos_right (by norm_num)]
      exact mul_lt_mul_of_pos_right h (by norm_num)

/-- Witness for `distance_mono_in_action` at a concrete reading. -/
theorem distance_mono_in_action_witness :
    (0 : ℚ) < 1 ∧
    get_distance ((Training.running 5 1 70).updateAction 0)
      < get_distance ((Training.running 5 1 70).updateAction 1) :=
  ⟨by norm_num, distance_mono_in_action (.running 5 1 70) 0 1 (by norm_num)⟩

/-- C9: for every positive factor `k`, the mean speed is unchanged when
the distance-determining input and the duration are both scaled by `k`:
for Running and SportsWalking scale `action` and `duration`; for Swimming
scale `count_pool` (or `length_pool`) and `duration`. -/
theorem mean_speed_scale_invariant (k : ℚ) (hk : 0 < k)
    (a d w h lp cp : ℚ) (hd : 0 < d) :
    get_mean_speed (.running (a * k) (d * k) w)
      = get_mean_speed (.running a d w) ∧
    get_mean_speed (.sportsWalking (a * k) (d * k) w h)
      = get_mean_speed (.sportsWalking a d w h) ∧
    get_mean_speed (.swimming a (d * k) w lp (cp * k))
      = get_mean_speed (.swimming a d w lp cp) ∧
    get_mean_speed (.swimming a (d * k) w (lp * k) cp)
      = get_mean_speed (.swimming a d w lp cp) := by
  have hk0 : k ≠ 0 := ne_of_gt hk
  have hd0 : d ≠ 0 := ne_of_gt hd
  refine ⟨?_, ?_, ?_, ?_⟩ <;>
    · simp only [get_mean_speed, get_distance, action, duration, LEN_STEP,
        M_IN_KM]
      field_simp
      ring

/-- Witness for `mean_speed_scale_invariant` at a concrete reading with
scale factor 2. -/
theorem mean_speed_scale_invariant_witness :
    (0 : ℚ) < 2 ∧ (0 : ℚ) < 1 ∧
    get_mean_speed (.running (100 * 2) (1 * 2) 70)
      = get_mean_speed (.running 100 1 70) :=
  ⟨by norm_num, by norm_num,
    (mean_speed_scale_invariant 2 (by norm_num) 100 1 70 1 1 1
      (by norm_num)).1⟩

/-- C10: on the base `Training` class, `get_spent_calories` returns
`None`, so `show_training_info` on a bare `Training` yields an
`InfoMessage` whose `calories` field is `None`; only the `Running`,
`SportsWalking` and `Swimming` subclasses return a calorie value. -/
theorem base_training_calories_none (a d w : ℚ) :
    get_spent_calories (.base a d w) = none ∧
    (show_training_info (.base a d w)).calories = none ∧
    (show_training_info (.base a d w)).training_type = "Training" ∧
    (∀ a' d' w' : ℚ, (get_spent_calories (.running a' d' w')).isSome) ∧
    (∀ a' d' w' h' : ℚ,
      (get_spent_calories (.sportsWalking a' d' w' h')).isSome) ∧
    (∀ a' d' w' lp cp : ℚ,
      (get_spent_calories (.swimming a' d' w' lp cp)).isSome) :=
  ⟨rfl, rfl, rfl, fun _ _ _ => rfl, fun _ _ _ _ => rfl,
    fun _ _ _ _ _ => rfl⟩

end Homework
